import Mathlib

/-!
Shallow embedding of `src/src/main.rs` of rust-mini-practice.

The file defines three small cores: a parity-tagging `Number` enum, the
`MyError` error taxonomy with its textual rendering (`fmt::Display`) and its
HTTP response mapping (`IntoResponse`), and the `Password` /
`PasswordEnum` sensitive-value wrapper with its masking display path.

Modelling decisions, each noted again at the definition it concerns:
- the payloads of `sqlx::Error` and `redis::RedisError` are carried by the
  source only for their textual rendering, so they are modelled as that
  rendering (a `String`);
- an axum `Response` is modelled by its observable descriptor, the
  `(status, body)` pair, with the status as the numeric HTTP code;
- `DateTime<Utc>` is an abstract instant the core never inspects; it is
  modelled as a `Nat`.
-/

namespace RustMini

/-- Embeds `enum Number { Odd(i64), Even(i64) }` (src/src/main.rs:93-96).
The `i64` payload is modelled as `Int`; the only arithmetic performed on it
is `% 2`, which cannot overflow, so no wrap-around modelling is needed. -/
inductive Number where
  | Odd : Int → Number
  | Even : Int → Number
deriving DecidableEq

/-- Embeds `Number::from_i64` (src/src/main.rs:109-114): `match num % 2 == 0`.
Rust `%` on `i64` is the truncated remainder, i.e. `Int.tmod`. -/
def Number.from_i64 (num : Int) : Number :=
  match num.tmod 2 == 0 with
  | true => Number.Even num
  | false => Number.Odd num

/-- Embeds `enum MyError` (src/src/main.rs:169-175). The wrapped
`sqlx::Error` / `redis::RedisError` payloads are external error values the
source only ever renders with `{e}`, so each is modelled by its rendered
text. -/
inductive MyError where
  | SQLError : String → MyError
  | RedisError : String → MyError
  | Forbidden : MyError
  | NotFound : MyError
  | Unauthorized : MyError
deriving DecidableEq

/-- Embeds `impl fmt::Display for MyError` (src/src/main.rs:177-188): the
text each arm writes to the formatter, with `{e}` interpolated by `write!`. -/
def render : MyError → String
  | .SQLError e => "SQL Error: " ++ e
  | .RedisError e => "Redis Error: " ++ e
  | .Forbidden => "Forbidden"
  | .NotFound => "Not Found"
  | .Unauthorized => "Unauthorized"

/-- `axum::http::StatusCode::INTERNAL_SERVER_ERROR`. -/
def StatusCode.INTERNAL_SERVER_ERROR : Nat := 500

/-- `axum::http::StatusCode::FORBIDDEN`. -/
def StatusCode.FORBIDDEN : Nat := 403

/-- `axum::http::StatusCode::NOT_FOUND`. -/
def StatusCode.NOT_FOUND : Nat := 404

/-- `axum::http::StatusCode::UNAUTHORIZED`. -/
def StatusCode.UNAUTHORIZED : Nat := 401

/-- Embeds `impl IntoResponse for MyError` (src/src/main.rs:215-225), a
`Response` being modelled by its `(status, body)` descriptor. In the source
the first two arms yield the pair directly and the last three call
`.into_response()` on the same pair; both readings carry the same
descriptor. The body of the first two arms is the block `\x7b"SQL Error
\x7be\x7d"\x7d`: a plain string literal with no `format!` macro around it,
so the `\x7be\x7d` placeholder is NOT interpolated and the body is that
fixed literal, independent of the wrapped cause. -/
def into_response : MyError → Nat × String
  | .SQLError _ => (StatusCode.INTERNAL_SERVER_ERROR, "SQL Error \x7be\x7d")
  | .RedisError _ => (StatusCode.INTERNAL_SERVER_ERROR, "REDIS Error \x7be\x7d")
  | .Forbidden => (StatusCode.FORBIDDEN, "Forbidden")
  | .NotFound => (StatusCode.NOT_FOUND, "Not Found")
  | .Unauthorized => (StatusCode.UNAUTHORIZED, "Unauthorized")

/-- Effect-explicit form of `into_response`: every arm of the source match
builds its response descriptor from constants and calls nothing effectful
(no I/O, no shared state), so running it threads any ambient effect log
through untouched. -/
def into_response_run (e : MyError) (effects : List String) :
    (Nat × String) × List String :=
  (into_response e, effects)

/-- Embeds `struct Password` (src/src/main.rs:233-236); `created_at :
DateTime<Utc>` is an abstract instant modelled as `Nat`. -/
structure Password where
  password : String
  created_at : Nat
deriving DecidableEq

/-- Embeds `enum PasswordEnum { Secured(Password), Unsecured(Password) }`
(src/src/main.rs:238-241). -/
inductive PasswordEnum where
  | Secured : Password → PasswordEnum
  | Unsecured : Password → PasswordEnum
deriving DecidableEq

/-- Embeds `impl fmt::Display for PasswordEnum` (src/src/main.rs:245-257),
returning the text written to the formatter together with the value after
the call; `fmt` borrows `self` immutably, so the second component is the
unchanged input. The `Secured` arm builds the masked string — one mask
character per character of the wrapped password — and writes it (the source
rebinds the match binder to the masked string and then writes it under an
inconsistent binder name; the written value is the masked string computed
in the arm). The `Unsecured` arm computes a masked string but discards it
and never writes, so it produces no output. -/
def PasswordEnum.fmt : PasswordEnum → String × PasswordEnum
  | .Secured password =>
      (String.mk (password.password.data.map (fun _ => Char.ofNat 42)),
        .Secured password)
  | .Unsecured p => ("", .Unsecured p)

/-- The display path of a `PasswordEnum`: the text its `Display` impl
writes. -/
def PasswordEnum.display (v : PasswordEnum) : String := v.fmt.1

/-- Embeds `PasswordEnum::is_secured` (src/src/main.rs:260-265). -/
def PasswordEnum.is_secured : PasswordEnum → Bool
  | .Secured _ => true
  | .Unsecured _ => false

/-- Modelled from the spec: the sensitivity flag drawn from
the set containing Secured and Unsecured (spec section 3); the source
carries the flag only as the choice of `PasswordEnum` constructor. -/
inductive Sensitivity where
  | Secured : Sensitivity
  | Unsecured : Sensitivity
deriving DecidableEq

/-- Modelled from the spec: `construct(raw, sensitivity)` (spec section
4.2) "records raw payload, current timestamp, and sensitivity flag"; the
source builds `Password` values by record literal and has no named
constructor function. The current timestamp is passed explicitly. -/
def construct (raw : String) (now : Nat) : Sensitivity → PasswordEnum
  | Sensitivity.Secured => PasswordEnum.Secured (Password.mk raw now)
  | Sensitivity.Unsecured => PasswordEnum.Unsecured (Password.mk raw now)

/-- Modelled from the spec: `reveal()` (spec section 4.2) "returns the
original payload"; the source has no such accessor, the raw payload being
reachable only as the `password` field of the wrapped struct. -/
def reveal : PasswordEnum → String
  | .Secured p => p.password
  | .Unsecured p => p.password

/-- C1: the claim states that `toResponse` on a wrapped store cause with
message "connection refused" yields `(500, "Store error: connection
refused")` when `includeCause=true`. The code disagrees: the body of the
`SQLError` arm is the fixed literal `"SQL Error \x7be\x7d"` — there is no
`format!` macro, no interpolation of the cause, and no `includeCause`
configuration at all. -/
theorem toResponse_store_spec_counterexample :
    ¬ into_response (MyError.SQLError "connection refused") =
      (500, "Store error: connection refused") := by
  decide

/-- C1 (amended): for every wrapped cause `c`, `toResponse` sends
`StoreFailure c` and `CacheFailure c` to the server-fault status 500, but
the body is the fixed literal `"SQL Error \x7be\x7d"` resp. `"REDIS Error
\x7be\x7d"`, with the placeholder not interpolated and no `includeCause`
configuration present. -/
theorem toResponse_wrapped_amended (c : String) :
    into_response (MyError.SQLError c) = (500, "SQL Error \x7be\x7d") ∧
    into_response (MyError.RedisError c) = (500, "REDIS Error \x7be\x7d") :=
  ⟨rfl, rfl⟩

/-- C2: `toResponse` maps each parameterless variant to its fixed
descriptor — Forbidden to (403, "Forbidden"), NotFound to (404, "Not
Found"), Unauthorized to (401, "Unauthorized") — and, taking no
configuration input, does so regardless of configuration. -/
theorem toResponse_parameterless :
    into_response MyError.Forbidden = (403, "Forbidden") ∧
    into_response MyError.NotFound = (404, "Not Found") ∧
    into_response MyError.Unauthorized = (401, "Unauthorized") :=
  ⟨rfl, rfl, rfl⟩

/-- C3: the claim states that rendering a store failure whose cause renders
as "connection refused" yields "Store error: connection refused". The code
disagrees: the `Display` arm writes `"SQL Error: \x7be\x7d"`, so the
rendering is "SQL Error: connection refused". -/
theorem render_store_spec_counterexample :
    ¬ render (MyError.SQLError "connection refused") =
      "Store error: connection refused" := by
  decide

/-- C3 (amended): for every wrapped cause `c`, the rendering of
`StoreFailure c` is `"SQL Error: " ++ c` and that of `CacheFailure c` is
`"Redis Error: " ++ c`: each includes the wrapped cause's own rendering
verbatim (so the rendering of `StoreFailure "disk full"` contains the
literal "disk full"), but the prefix is "SQL Error: " / "Redis Error: ",
not "Store error: ". -/
theorem render_wrapped_amended (c : String) :
    render (MyError.SQLError c) = "SQL Error: " ++ c ∧
    render (MyError.RedisError c) = "Redis Error: " ++ c :=
  ⟨rfl, rfl⟩

/-- C4: for every raw string flagged Secured, `display()` returns a string
of the same length as the raw payload consisting entirely of the mask
character `*` (code 42); in particular on the payload "p@ss1234" it
returns "********". -/
theorem display_secured_masks (p : Password) (t : Nat) :
    (PasswordEnum.display (PasswordEnum.Secured p)).length =
      p.password.length ∧
    (PasswordEnum.display (PasswordEnum.Secured p)).data.all
      (fun ch => ch == Char.ofNat 42) = true ∧
    PasswordEnum.display (PasswordEnum.Secured (Password.mk "p@ss1234" t)) =
      "********" := by
  refine ⟨?_, ?_, rfl⟩
  · show (p.password.data.map fun _ => Char.ofNat 42).length =
      p.password.data.length
    exact List.length_map _ _
  · show ((p.password.data.map fun _ => Char.ofNat 42).all
      fun ch => ch == Char.ofNat 42) = true
    rw [List.all_eq_true]
    intro x hx
    obtain ⟨y, hy, rfl⟩ := List.mem_map.mp hx
    exact beq_self_eq_true _

/-- C5: revealing a value constructed from any raw string (the empty string
included) with the Secured flag returns the original raw string
unchanged. -/
theorem reveal_construct_roundtrip (raw : String) (now : Nat) :
    reveal (construct raw now Sensitivity.Secured) = raw ∧
    reveal (construct "" now Sensitivity.Secured) = "" :=
  ⟨rfl, rfl⟩

/-- C6: `render` maps each parameterless variant to its fixed literal:
"Forbidden", "Not Found" and "Unauthorized". -/
theorem render_parameterless :
    render MyError.Forbidden = "Forbidden" ∧
    render MyError.NotFound = "Not Found" ∧
    render MyError.Unauthorized = "Unauthorized" :=
  ⟨rfl, rfl, rfl⟩

/-- C7: `MyError` is the closed five-variant domain, and `render` and
`into_response` are total over it: every value is one of the five variants
and both operations produce a result on it. -/
theorem render_toResponse_total (e : MyError) :
    ((∃ c, e = MyError.SQLError c) ∨ (∃ c, e = MyError.RedisError c) ∨
      e = MyError.Forbidden ∨ e = MyError.NotFound ∨
      e = MyError.Unauthorized) ∧
    (∃ t, render e = t) ∧ (∃ s b, into_response e = (s, b)) := by
  refine ⟨?_, ⟨render e, rfl⟩, ⟨(into_response e).1, (into_response e).2, rfl⟩⟩
  cases e with
  | SQLError c => exact Or.inl ⟨c, rfl⟩
  | RedisError c => exact Or.inr (Or.inl ⟨c, rfl⟩)
  | Forbidden => exact Or.inr (Or.inr (Or.inl rfl))
  | NotFound => exact Or.inr (Or.inr (Or.inr (Or.inl rfl)))
  | Unauthorized => exact Or.inr (Or.inr (Or.inr (Or.inr rfl)))

/-- C8: the display path never mutates a `PasswordEnum`: the value after
the `Display` call is the input itself, and in particular the raw payload
revealed afterwards is the raw payload revealed before; the masked text is
a separate string built character by character. -/
theorem display_path_frame (v : PasswordEnum) :
    v.fmt.2 = v ∧ reveal v.fmt.2 = reveal v := by
  cases v with
  | Secured p => exact ⟨rfl, rfl⟩
  | Unsecured p => exact ⟨rfl, rfl⟩

/-- C9: `toResponse` is pure and deterministic: its result on a given
variant is the same under any two ambient effect contexts, and the effect
context is left untouched. -/
theorem into_response_pure (e : MyError) (w w' : List String) :
    (into_response_run e w).1 = (into_response_run e w').1 ∧
    (into_response_run e w).2 = w :=
  ⟨rfl, rfl⟩

/-- C10: `Number.from_i64` returns `Even num` when `num % 2 == 0` (Rust
`%` on `i64` being the truncated remainder) and `Odd num` otherwise, the
wrapped payload equalling the input in both cases. -/
theorem from_i64_parity (num : Int) :
    (num.tmod 2 = 0 → Number.from_i64 num = Number.Even num) ∧
    (num.tmod 2 ≠ 0 → Number.from_i64 num = Number.Odd num) := by
  refine ⟨fun h => ?_, fun h => ?_⟩
  · have hb : (num.tmod 2 == 0) = true := by simp [h]
    simp [Number.from_i64, hb]
  · have hb : (num.tmod 2 == 0) = false := by simpa using h
    simp [Number.from_i64, hb]

/-- Witness for C10 at the concrete inputs 4 and 7. -/
theorem from_i64_parity_witness :
    Number.from_i64 4 = Number.Even 4 ∧ Number.from_i64 7 = Number.Odd 7 :=
  ⟨(from_i64_parity 4).1 (by decide), (from_i64_parity 7).2 (by decide)⟩

end RustMini
